import Mathlib

/-!
Verification of the agentic retrieval-refinement controller in
`backend/agentic_rag.py` (class `AgenticFitnessRAG`).

Python floats are modelled as `ℚ` (all constants in the controller are
decimal literals, exact in `ℚ`), Python lists as `List`, Python dicts read
through `.get(key, default)` as records (an `Option` field where the code
sometimes omits the key), and the external ChromaDB search capability as an
abstract function that may raise (`Except Unit`).  String operations
(`in`, `.replace`, `.lower`) are modelled over `String.data` with the same
left-to-right, non-overlapping semantics as Python (ASCII lowering).
-/

/-- Python `pat in s` (substring containment) on the underlying char list. -/
def hasSubstrAux (pat : List Char) : List Char → Bool
  | [] => pat.isEmpty
  | c :: cs => pat.isPrefixOf (c :: cs) || hasSubstrAux pat cs

/-- Python `pat in s`. -/
def strContains (s pat : String) : Bool :=
  hasSubstrAux pat.data s.data

/-- One fuel-indexed pass of Python `str.replace`: scan left to right,
replace non-overlapping occurrences of `pat`.  Each step consumes at least
one character, so fuel = length of the list suffices. -/
def strReplaceAux (pat rep : List Char) : Nat → List Char → List Char
  | _, [] => []
  | 0, l => l
  | fuel + 1, c :: cs =>
    if pat.isPrefixOf (c :: cs) then
      rep ++ strReplaceAux pat rep fuel (cs.drop (pat.length - 1))
    else
      c :: strReplaceAux pat rep fuel cs

/-- Python `s.replace(pat, rep)` for non-empty `pat` (the controller never
replaces an empty pattern). -/
def strReplace (s pat rep : String) : String :=
  if pat.isEmpty then s else ⟨strReplaceAux pat.data rep.data s.data.length s.data⟩

/-- Python `s.lower()` (ASCII, which covers every keyword the code scans for). -/
def strLower (s : String) : String :=
  ⟨s.data.map Char.toLower⟩

/-- Python `len(set(l))`: the number of distinct elements of `l`. -/
def countDistinct : List String → Nat
  | [] => 0
  | x :: xs => (if x ∈ xs then 0 else 1) + countDistinct xs

/-- `class AgentStrategy(Enum)` — the four retrieval strategies. -/
inductive AgentStrategy where
  | broad_search
  | targeted_search
  | progressive_refinement
  | multi_angle_approach
deriving DecidableEq, Repr

/-- The Python enum's `.value` string. -/
def AgentStrategy.value : AgentStrategy → String
  | .broad_search => "broad_search"
  | .targeted_search => "targeted_search"
  | .progressive_refinement => "progressive_refinement"
  | .multi_angle_approach => "multi_angle_approach"

/-- `@dataclass SearchResult`. -/
structure SearchResult where
  content : String
  relevance_score : ℚ
  source : String
  exercise_type : String
  target_muscles : List String
  difficulty : String
deriving DecidableEq, Repr

/-- The `success_criteria` dict built by `_create_strategic_plan`; only
`relevance_threshold` is ever read back (via `.get("relevance_threshold", 0.7)`). -/
structure SuccessCriteria where
  relevance_threshold : ℚ
  coverage_target : ℚ
  diversity_minimum : ℚ
  practical_applicability : ℚ
deriving DecidableEq, Repr

/-- `@dataclass AgentPlan`. -/
structure AgentPlan where
  primary_goal : String
  sub_goals : List String
  search_strategies : List AgentStrategy
  expected_iterations : Nat
  success_criteria : SuccessCriteria
deriving DecidableEq, Repr

/-- The dict returned by `_assess_result_quality`.  The empty-results branch
returns a dict WITHOUT the `"meets_criteria"` key, so that field is an
`Option Bool`; every reader accesses it as `.get("meets_criteria", False)`,
i.e. `meets_criteria.getD false`. -/
structure QualityAssessment where
  overall_score : ℚ
  relevance : ℚ
  coverage : ℚ
  diversity : ℚ
  meets_criteria : Option Bool
deriving DecidableEq, Repr

/-- One raw hit from `vector_store.search_exercises`: a dict with optional
`content`, optional `distance`, an optional `metadata` dict (its `type` /
`body_part` / `level` keys flattened here as `Option`s), and top-level
optional `muscle_groups` / `difficulty` keys read by the targeted strategy. -/
structure ExerciseHit where
  content : Option String
  distance : Option ℚ
  metaType : Option String
  metaBodyPart : Option String
  metaLevel : Option String
  muscle_groups : Option (List String)
  difficulty : Option String
deriving DecidableEq, Repr

/-- The external search capability: `(query, top_k) ↦ hits`, which may raise
(`.error`); every call site passes `filters=None`, so filters are omitted. -/
def SearchCap := String → Nat → Except Unit (List ExerciseHit)

/-- `1.0 - (exercise.get("distance", 0) if exercise.get("distance") else default)`:
Python truthiness means an absent, `None`, or **zero** distance all fall back
to the strategy default. -/
def hitRelevance (defaultDistance : ℚ) (h : ExerciseHit) : ℚ :=
  1 - (match h.distance with
       | some d => if d ≠ 0 then d else defaultDistance
       | none => defaultDistance)

/-- The broad-search term table of `_execute_broad_search`. -/
def broadSearchTerms (goal : String) : List String :=
  if goal = "weight_loss" then ["cardio", "fat burning", "HIIT", "weight loss exercises"]
  else if goal = "muscle_gain" then ["strength training", "muscle building", "hypertrophy", "resistance"]
  else if goal = "cardio" then ["endurance", "cardiovascular", "aerobic", "cardio training"]
  else if goal = "strength" then ["strength", "powerlifting", "resistance training", "strong"]
  else ["fitness", "exercise", "workout", "training"]

/-- SearchResult construction in `_execute_broad_search` (default distance 0.5). -/
def mkBroadResult (h : ExerciseHit) : SearchResult where
  content := h.content.getD ""
  relevance_score := hitRelevance 0.5 h
  source := "chromadb"
  exercise_type := h.metaType.getD "general"
  target_muscles := [h.metaBodyPart.getD ""]
  difficulty := h.metaLevel.getD "beginner"

/-- `_execute_broad_search`: one search per term (`top_k=5`), top 2 hits per
term; a raising search contributes zero results (exception caught and logged). -/
def execute_broad_search (cap : SearchCap) (plan : AgentPlan) : List SearchResult :=
  ((broadSearchTerms plan.primary_goal).map (fun term =>
    match cap term 5 with
    | .ok exercises => (exercises.take 2).map mkBroadResult
    | .error _ => [])).flatten

/-- The query built from a sub-goal in `_execute_targeted_search`:
`sub.replace("find_","").replace("identify_","").replace("locate_","")
.replace("discover_","").replace("_"," ")` (each replace removes every
occurrence, left to right). -/
def subGoalQuery (sub : String) : String :=
  strReplace (strReplace (strReplace (strReplace (strReplace sub "find_" "") "identify_" "") "locate_" "") "discover_" "") "_" " "

/-- SearchResult construction in `_execute_targeted_search` (default distance 0.6). -/
def mkTargetedResult (h : ExerciseHit) : SearchResult where
  content := h.content.getD ""
  relevance_score := hitRelevance 0.6 h
  source := "chromadb_targeted"
  exercise_type := h.metaType.getD "targeted"
  target_muscles := h.muscle_groups.getD []
  difficulty := h.difficulty.getD "intermediate"

/-- `_execute_targeted_search`: only when `iteration < len(plan.sub_goals)`
does it build a query from `plan.sub_goals[iteration]`, search once
(`top_k=5`) and keep the top 3 hits; otherwise `results` stays `[]`.
A raising search contributes zero results. -/
def execute_targeted_search (cap : SearchCap) (plan : AgentPlan) (iteration : Nat) : List SearchResult :=
  if iteration < plan.sub_goals.length then
    match cap (subGoalQuery (plan.sub_goals.getD iteration "")) 5 with
    | .ok exercises => (exercises.take 3).map mkTargetedResult
    | .error _ => []
  else []

/-- The angle table of `_execute_multi_angle_search`. -/
def multiAngleQueries (goal : String) : List String :=
  if goal = "weight_loss" then ["beginner weight loss", "advanced fat burning", "cardio for weight loss"]
  else if goal = "muscle_gain" then ["beginner muscle building", "advanced hypertrophy", "strength for muscle"]
  else if goal = "cardio" then ["running cardio", "HIIT cardio", "low intensity cardio"]
  else if goal = "strength" then ["powerlifting", "bodyweight strength", "dumbbell strength"]
  else ["beginner fitness", "intermediate fitness", "advanced fitness"]

/-- SearchResult construction in `_execute_multi_angle_search`
(default distance 0.55, per-angle source tag). -/
def mkAngleResult (angle : String) (h : ExerciseHit) : SearchResult where
  content := h.content.getD ""
  relevance_score := hitRelevance 0.55 h
  source := "chromadb_angle_" ++ strReplace angle " " "_"
  exercise_type := h.metaType.getD "multi_angle"
  target_muscles := [h.metaBodyPart.getD ""]
  difficulty := h.metaLevel.getD "varied"

/-- `_execute_multi_angle_search`: one search per angle (`top_k=5`), top 2
hits per angle; a raising search contributes zero results. -/
def execute_multi_angle_search (cap : SearchCap) (plan : AgentPlan) : List SearchResult :=
  ((multiAngleQueries plan.primary_goal).map (fun angle =>
    match cap angle 5 with
    | .ok exercises => (exercises.take 2).map (mkAngleResult angle)
    | .error _ => [])).flatten

/-- `_execute_strategic_search`: dispatch on the strategy;
`PROGRESSIVE_REFINEMENT` delegates to the targeted search at index 0.
(The `user_profile` argument of the Python method is never read by any of
the four executors — all searches go out with `filters=None` — so it is
omitted here.) -/
def execute_strategic_search (cap : SearchCap) (strategy : AgentStrategy)
    (plan : AgentPlan) (iteration : Nat) : List SearchResult :=
  match strategy with
  | .broad_search => execute_broad_search cap plan
  | .targeted_search => execute_targeted_search cap plan iteration
  | .progressive_refinement => execute_targeted_search cap plan 0
  | .multi_angle_approach => execute_multi_angle_search cap plan

/-- `_results_lack_specificity`: more than
`len(results) * 0.7` of the results have an `exercise_type` whose
lower-casing contains one of "general", "basic", "beginner", "simple". -/
def results_lack_specificity (results : List SearchResult) : Bool :=
  let general_count := (results.filter (fun r =>
    ["general", "basic", "beginner", "simple"].any
      (fun term => strContains (strLower r.exercise_type) term))).length
  decide ((general_count : ℚ) > (results.length : ℚ) * 0.7)

/-- `_results_need_refinement`: the average relevance score (0 for empty
results) is strictly between 0.4 and 0.7. -/
def results_need_refinement (results : List SearchResult) : Bool :=
  let avg_score : ℚ :=
    if results = [] then 0
    else (results.map (·.relevance_score)).sum / (results.length : ℚ)
  decide (0.4 < avg_score ∧ avg_score < 0.7)

/-- `_select_optimal_strategy`.  The final fallback is
`plan.search_strategies[iteration % len(plan.search_strategies)]`; Python
raises there when the strategy list is empty, so the embedding's `getD`
default is only reachable outside the function's Python domain. -/
def select_optimal_strategy (plan : AgentPlan) (current_results : List SearchResult)
    (iteration : Nat) : AgentStrategy :=
  if iteration = 0 then .broad_search
  else if current_results.length < 3 then .multi_angle_approach
  else if results_lack_specificity current_results then .targeted_search
  else if results_need_refinement current_results then .progressive_refinement
  else plan.search_strategies.getD (iteration % plan.search_strategies.length) .broad_search

/-- `_assess_result_quality`.  The empty branch returns a dict without the
`"meets_criteria"` key (`none` here).  `coverage` divides by
`len(plan.sub_goals)` (Python would raise on an empty sub-goal list; `ℚ`
division by zero yields 0, outside the Python domain). -/
def assess_result_quality (new_results : List SearchResult) (plan : AgentPlan)
    (all_results : List SearchResult) : QualityAssessment :=
  if new_results = [] then
    { overall_score := 0.0, relevance := 0.0, coverage := 0.0, diversity := 0.0,
      meets_criteria := none }
  else
    let avg_relevance : ℚ :=
      ((new_results.map (·.relevance_score)).sum) / (new_results.length : ℚ)
    let coverage : ℚ :=
      min ((countDistinct ((all_results ++ new_results).map (·.exercise_type)) : ℚ)
            / (plan.sub_goals.length : ℚ)) 1.0
    let diversity : ℚ :=
      min (((countDistinct (((all_results ++ new_results).map (·.target_muscles)).flatten) : ℚ)
            + (countDistinct ((all_results ++ new_results).map (·.difficulty)) : ℚ)) / 10.0) 1.0
    let overall_score := avg_relevance * 0.4 + coverage * 0.3 + diversity * 0.3
    { overall_score := overall_score
      relevance := avg_relevance
      coverage := coverage
      diversity := diversity
      meets_criteria := some (decide (overall_score ≥ plan.success_criteria.relevance_threshold)) }

/-- `_should_stop_searching`: stop when quality criteria are met, or this is
the last allowed iteration, or the overall score is at least 0.9.  The first
guard reads `quality_assessment.get("meets_criteria", False)`. -/
def should_stop_searching (max_iterations : Nat) (qa : QualityAssessment)
    (_plan : AgentPlan) (iteration : Nat) : Bool :=
  if qa.meets_criteria.getD false then true
  else if (iteration : ℤ) ≥ (max_iterations : ℤ) - 1 then true
  else if qa.overall_score ≥ 0.9 then true
  else false

/-- The iterative loop of `generate_recommendation`
(`for iteration in range(self.max_iterations)`), with the loop body's search
execution abstracted as `exec iteration current_results`.  Returns the final
accumulated `search_results` together with the per-round result counts.
Fuel starts at `max_iterations` and the iteration index at 0, exactly
mirroring `range`. -/
def agentic_loop_aux (plan : AgentPlan) (max_iterations : Nat)
    (exec : Nat → List SearchResult → List SearchResult) :
    Nat → Nat → List SearchResult → List SearchResult × List Nat
  | 0, _, acc => (acc, [])
  | fuel + 1, iteration, acc =>
    let iteration_results := exec iteration acc
    let quality := assess_result_quality iteration_results plan acc
    let acc' := acc ++ iteration_results
    if should_stop_searching max_iterations quality plan iteration then
      (acc', [iteration_results.length])
    else
      let rest := agentic_loop_aux plan max_iterations exec fuel (iteration + 1) acc'
      (rest.1, iteration_results.length :: rest.2)

/-- The loop of `generate_recommendation`, starting from
`search_results = []` at iteration 0. -/
def agentic_loop (plan : AgentPlan) (max_iterations : Nat)
    (exec : Nat → List SearchResult → List SearchResult) :
    List SearchResult × List Nat :=
  agentic_loop_aux plan max_iterations exec max_iterations 0 []

/-- One round's search of `generate_recommendation`: dynamic strategy
selection followed by strategic search execution. -/
def round_search (cap : SearchCap) (plan : AgentPlan)
    (iteration : Nat) (current_results : List SearchResult) : List SearchResult :=
  execute_strategic_search cap (select_optimal_strategy plan current_results iteration)
    plan iteration

/-- Phase 2 of `generate_recommendation` against a concrete search capability. -/
def generate_recommendation_search (cap : SearchCap) (max_iterations : Nat)
    (plan : AgentPlan) : List SearchResult × List Nat :=
  agentic_loop plan max_iterations (round_search cap plan)

/-- The `"iterations_used"` metadata field of the final payload
(`generate_recommendation` sets it to `len(search_results)`). -/
def iterations_used (run : List SearchResult × List Nat) : Nat :=
  run.1.length

/-- The boolean flags `_extract_visual_insights` may set (dict keys read back
by `_create_strategic_plan` via truthy `.get`). -/
structure VisualInsights where
  form_issues : Bool := false
  form_assessment : Bool := false
  equipment_available : Bool := false
  equipment_assessment : Bool := false
  current_fitness_level : Bool := false
  mobility_issues : Bool := false
  muscle_definition : Bool := false
  posture_issues : Bool := false
deriving DecidableEq, Repr

/-- `_create_strategic_plan`: fixed goal → (sub-goals, strategies) table,
visual-insight flags appending extra sub-goals, constant success criteria,
`expected_iterations = min(len(sub_goals), self.max_iterations)`. -/
def create_strategic_plan (primary_goal : String) (visual : VisualInsights)
    (max_iterations : Nat) : AgentPlan :=
  let base :
      List String × List String × List String × List AgentStrategy :=
    if primary_goal = "weight_loss" then
      (["find_high_intensity_cardio", "identify_calorie_burning_exercises",
        "locate_nutrition_guidance", "discover_progression_strategies"],
       if visual.form_issues then ["address_form_corrections"] else [],
       if visual.equipment_available then ["utilize_available_equipment"] else [],
       [.broad_search, .targeted_search])
    else if primary_goal = "muscle_gain" then
      (["find_progressive_strength_exercises", "identify_muscle_building_protocols",
        "locate_nutrition_for_growth", "discover_recovery_strategies"],
       if visual.muscle_definition then ["target_specific_muscle_groups"] else [],
       if visual.posture_issues then ["address_postural_corrections"] else [],
       [.targeted_search, .progressive_refinement])
    else if primary_goal = "cardio" then
      (["find_endurance_training_methods", "identify_cardio_progressions",
        "locate_heart_rate_guidance", "discover_training_variations"],
       if visual.current_fitness_level then ["adjust_intensity_for_level"] else [],
       if visual.equipment_available then ["optimize_available_equipment"] else [],
       [.broad_search, .multi_angle_approach])
    else
      (["find_foundational_exercises", "identify_balanced_routines",
        "locate_beginner_progressions", "discover_safety_guidelines"],
       (if visual.form_assessment then ["improve_exercise_form"] else []) ++
         (if visual.mobility_issues then ["address_mobility_limitations"] else []),
       if visual.equipment_assessment then ["adapt_for_equipment_constraints"] else [],
       [.broad_search, .progressive_refinement])
  let sub_goals := base.1 ++ base.2.1 ++ base.2.2.1
  { primary_goal := primary_goal
    sub_goals := sub_goals
    search_strategies := base.2.2.2
    expected_iterations := min sub_goals.length max_iterations
    success_criteria :=
      { relevance_threshold := 0.7, coverage_target := 0.8,
        diversity_minimum := 3, practical_applicability := 0.9 } }

/-- One entry of `self.successful_strategies[strategy_key]`. -/
structure MemoryEntry where
  quality_score : ℚ
  result_count : Nat
  timestamp : String
deriving DecidableEq, Repr

/-- `self.successful_strategies`: strategy-value keyed dict of entry lists;
an absent key behaves as `[]` (the code inserts `[]` before appending). -/
def AgentMemoryState := String → List MemoryEntry

/-- The empty `successful_strategies` dict of a fresh controller. -/
def emptyAgentMemory : AgentMemoryState := fun _ => []

/-- `_update_agent_memory`: append
`{"quality_score": quality.get("overall_score", 0), "result_count": len(results),
"timestamp": "current"}` under `strategy.value`, then truncate to the last 10
entries when the list exceeds 10. -/
def update_agent_memory (m : AgentMemoryState) (strategy : AgentStrategy)
    (results : List SearchResult) (quality : QualityAssessment) : AgentMemoryState :=
  let key := strategy.value
  let entry : MemoryEntry :=
    { quality_score := quality.overall_score, result_count := results.length,
      timestamp := "current" }
  let appended := m key ++ [entry]
  let truncated := if 10 < appended.length then appended.drop (appended.length - 10) else appended
  fun k => if k = key then truncated else m k

/-- One `_update_agent_memory` call's arguments. -/
structure MemoryCall where
  strategy : AgentStrategy
  results : List SearchResult
  quality : QualityAssessment

/-- Replay a sequence of `_update_agent_memory` calls on a fresh controller. -/
def run_agent_memory (calls : List MemoryCall) : AgentMemoryState :=
  calls.foldl (fun m c => update_agent_memory m c.strategy c.results c.quality) emptyAgentMemory

/-- The entry a call records. -/
def callEntry (c : MemoryCall) : MemoryEntry :=
  { quality_score := c.quality.overall_score, result_count := c.results.length,
    timestamp := "current" }

/-- The entries recorded under key `k`, in call order. -/
def recordedEntries (k : String) (calls : List MemoryCall) : List MemoryEntry :=
  (calls.filter (fun c => c.strategy.value = k)).map callEntry

/-- The suffix of the last (at most) 10 entries. -/
def lastTen (l : List MemoryEntry) : List MemoryEntry :=
  l.drop (l.length - 10)

/-- The dict returned by `_generate_reflection_insights`. -/
structure ReflectionInsights where
  planning_effectiveness : Bool
  goal_achievement : Bool
  search_efficiency : ℚ
  strategy_adaptation : Bool
  learnings_for_future : String
deriving DecidableEq, Repr

/-- `_generate_reflection_insights`: note that `planning_effectiveness`
compares `len(search_results)` — the accumulated RESULT count — against
`plan.expected_iterations`. -/
def generate_reflection_insights (plan : AgentPlan)
    (search_results : List SearchResult) : ReflectionInsights where
  planning_effectiveness := decide (search_results.length ≤ plan.expected_iterations)
  goal_achievement :=
    decide ((countDistinct (search_results.map (·.exercise_type)) : ℚ)
      ≥ (plan.sub_goals.length : ℚ) * 0.7)
  search_efficiency :=
    if search_results = [] then 0
    else (search_results.map (·.relevance_score)).sum / (search_results.length : ℚ)
  strategy_adaptation := decide (1 < countDistinct (search_results.map (·.source)))
  learnings_for_future := "Strategic planning improved recommendation quality and coverage"

/-- The age-band fallback of `_infer_fitness_level`. -/
def ageBandLevel (age : ℤ) : String :=
  if age < 25 then "beginner_to_intermediate"
  else if age > 50 then "experienced_but_cautious"
  else "intermediate"

/-- `_infer_fitness_level`: when the visual-analysis text is non-empty, scan
its lower-casing for keywords (advanced/muscular/athletic → "advanced";
beginner/sedentary/limited experience → "beginner"; intermediate/moderate →
"intermediate"); without a keyword hit, and for empty text, fall back to the
age bands. -/
def infer_fitness_level (age : ℤ) (image_analysis : String) : String :=
  if image_analysis ≠ "" then
    let analysis_lower := strLower image_analysis
    if strContains analysis_lower "advanced" || strContains analysis_lower "muscular"
        || strContains analysis_lower "athletic" then "advanced"
    else if strContains analysis_lower "beginner" || strContains analysis_lower "sedentary"
        || strContains analysis_lower "limited experience" then "beginner"
    else if strContains analysis_lower "intermediate" || strContains analysis_lower "moderate" then
      "intermediate"
    else ageBandLevel age
  else ageBandLevel age

/-- The number of results whose `exercise_type` (lower-cased, as the code
compares) contains one of the generic markers general/basic/beginner/simple. -/
def genericTypeCount (results : List SearchResult) : Nat :=
  (results.filter (fun r =>
    ["general", "basic", "beginner", "simple"].any
      (fun term => strContains (strLower r.exercise_type) term))).length

/-- The average relevance score of a result list. -/
def averageRelevance (results : List SearchResult) : ℚ :=
  (results.map (·.relevance_score)).sum / (results.length : ℚ)

/-- C3's claimed StrategySelector rule, written from the claim's words:
first-match priority over (1) iteration 0 → BroadSearch, (2) fewer than 3
cumulative results → MultiAngleApproach, (3) more than 70% generic
exercise types → TargetedSearch, (4) average relevance strictly between
0.4 and 0.7 → ProgressiveRefinement, (5) the plan's strategy list cycled
by iteration. -/
def strategy_selector_spec (plan : AgentPlan) (results : List SearchResult)
    (iteration : Nat) : AgentStrategy :=
  if iteration = 0 then .broad_search
  else if results.length < 3 then .multi_angle_approach
  else if (genericTypeCount results : ℚ) > (results.length : ℚ) * 0.7 then .targeted_search
  else if 0.4 < averageRelevance results ∧ averageRelevance results < 0.7 then .progressive_refinement
  else plan.search_strategies.getD (iteration % plan.search_strategies.length) .broad_search

/-- C5's TargetedSearch behaviour as amended: for an in-range iteration,
one search on the cleaned sub-goal query keeping the top 3 hits; for an
out-of-range iteration, no search and no results. -/
def targeted_search_spec (cap : SearchCap) (plan : AgentPlan) (iteration : Nat) :
    List SearchResult :=
  if iteration < plan.sub_goals.length then
    match cap (subGoalQuery (plan.sub_goals.getD iteration "")) 5 with
    | .ok hits => (hits.map mkTargetedResult).take 3
    | .error _ => []
  else []

/-- C9's fitness-level rule as amended, written from the amended claim's
words: keyword scan (advanced/muscular/athletic, then
beginner/sedentary/limited experience, then intermediate/moderate) of the
lower-cased non-empty text, with the age bands as fallback. -/
def fitness_level_spec (age : ℤ) (text : String) : String :=
  if text = "" then ageBandLevel age
  else if strContains (strLower text) "advanced" || strContains (strLower text) "muscular"
      || strContains (strLower text) "athletic" then "advanced"
  else if strContains (strLower text) "beginner" || strContains (strLower text) "sedentary"
      || strContains (strLower text) "limited experience" then "beginner"
  else if strContains (strLower text) "intermediate" || strContains (strLower text) "moderate" then
    "intermediate"
  else ageBandLevel age

/-! ## Concrete fixtures used by counterexamples and witnesses -/

/-- A hit with a small non-zero distance and full metadata. -/
def hitA : ExerciseHit where
  content := some "Push Up: classic bodyweight press"
  distance := some 0.1
  metaType := some "strength"
  metaBodyPart := some "chest"
  metaLevel := some "beginner"
  muscle_groups := none
  difficulty := none

/-- A second distinct hit with a small non-zero distance. -/
def hitB : ExerciseHit where
  content := some "Squat: compound lower-body lift"
  distance := some 0.2
  metaType := some "legs"
  metaBodyPart := some "quads"
  metaLevel := some "intermediate"
  muscle_groups := none
  difficulty := none

/-- A hit whose returned distance is exactly 0 (falsy in Python). -/
def hitZeroDist : ExerciseHit where
  content := some "Sit Up"
  distance := some 0
  metaType := none
  metaBodyPart := none
  metaLevel := none
  muscle_groups := none
  difficulty := none

/-- A hit whose returned distance is 2 (outside [0,1]). -/
def hitTwoDist : ExerciseHit where
  content := some "Plank"
  distance := some 2
  metaType := none
  metaBodyPart := none
  metaLevel := none
  muscle_groups := none
  difficulty := none

/-- A capability answering every query with the two good hits. -/
def capTwoHits : SearchCap := fun _ _ => .ok [hitA, hitB]

/-- A capability answering every query with four hits (so top-3 is proper). -/
def capFourHits : SearchCap := fun _ _ => .ok [hitA, hitB, hitZeroDist, hitTwoDist]

/-- A capability answering only the query "cardio", with a zero-distance and
an out-of-range-distance hit. -/
def capC6 : SearchCap := fun q _ =>
  if q = "cardio" then .ok [hitZeroDist, hitTwoDist] else .ok []

/-- A capability answering only the multi-angle query "beginner fitness". -/
def capC10 : SearchCap := fun q _ =>
  if q = "beginner fitness" then .ok [hitA, hitB] else .ok []

/-- A capability with hits whose distances stay within [0,1]. -/
def capInRange : SearchCap := fun _ _ => .ok [hitA, hitB]

/-- The "general" plan for `max_iterations` = 1, 2 and 3. -/
def planG1 : AgentPlan := create_strategic_plan "general" {} 1

def planG2 : AgentPlan := create_strategic_plan "general" {} 2

def planG3 : AgentPlan := create_strategic_plan "general" {} 3

/-- The "weight_loss" plan with no visual insights. -/
def planWL : AgentPlan := create_strategic_plan "weight_loss" {} 3

/-- A plan with a single sub-goal (for the out-of-range targeted search). -/
def planOneSub : AgentPlan where
  primary_goal := "general"
  sub_goals := ["find_high_intensity_cardio"]
  search_strategies := [.broad_search]
  expected_iterations := 1
  success_criteria :=
    { relevance_threshold := 0.7, coverage_target := 0.8,
      diversity_minimum := 3, practical_applicability := 0.9 }

/-- A quality assessment used to build concrete memory calls. -/
def qaZero : QualityAssessment where
  overall_score := 0
  relevance := 0
  coverage := 0
  diversity := 0
  meets_criteria := none

/-- A placeholder search result for building concrete memory calls. -/
def resultStub : SearchResult where
  content := ""
  relevance_score := 0
  source := "chromadb"
  exercise_type := "general"
  target_muscles := []
  difficulty := "beginner"

/-- Fifteen successive memory calls for one strategy key, distinguished by
their result counts 0,1,…,14. -/
def calls15 : List MemoryCall :=
  (List.range 15).map (fun i =>
    { strategy := .broad_search, results := List.replicate i resultStub,
      quality := qaZero })

/-! ## Helper lemmas about the loop -/

/-- Unfolding one round of the loop. -/
theorem agentic_loop_aux_succ (plan : AgentPlan) (m : Nat)
    (exec : Nat → List SearchResult → List SearchResult) (fuel it : Nat)
    (acc : List SearchResult) :
    agentic_loop_aux plan m exec (fuel + 1) it acc =
      if should_stop_searching m (assess_result_quality (exec it acc) plan acc) plan it then
        (acc ++ exec it acc, [(exec it acc).length])
      else
        ((agentic_loop_aux plan m exec fuel (it + 1) (acc ++ exec it acc)).1,
          (exec it acc).length :: (agentic_loop_aux plan m exec fuel (it + 1) (acc ++ exec it acc)).2) := by
  rfl

/-- The loop executes at most `fuel` rounds. -/
theorem agentic_loop_aux_rounds_le (plan : AgentPlan) (m : Nat)
    (exec : Nat → List SearchResult → List SearchResult) :
    ∀ (fuel it : Nat) (acc : List SearchResult),
      ((agentic_loop_aux plan m exec fuel it acc).2).length ≤ fuel := by
  intro fuel
  induction fuel with
  | zero => intro it acc; simp [agentic_loop_aux]
  | succ n ih =>
    intro it acc
    rw [agentic_loop_aux_succ]
    split
    · simp
    · simpa using Nat.succ_le_succ (ih (it + 1) (acc ++ exec it acc))

/-- The accumulated list grows by exactly the per-round counts. -/
theorem agentic_loop_aux_length_eq (plan : AgentPlan) (m : Nat)
    (exec : Nat → List SearchResult → List SearchResult) :
    ∀ (fuel it : Nat) (acc : List SearchResult),
      (agentic_loop_aux plan m exec fuel it acc).1.length
        = acc.length + ((agentic_loop_aux plan m exec fuel it acc).2).sum := by
  intro fuel
  induction fuel with
  | zero => intro it acc; simp [agentic_loop_aux]
  | succ n ih =>
    intro it acc
    rw [agentic_loop_aux_succ]
    split
    · simp
    · simp only [List.sum_cons]
      rw [ih (it + 1) (acc ++ exec it acc)]
      simp
      omega

/-- The loop never removes or mutates already-accumulated results: the
incoming accumulator is a prefix of the final accumulated list. -/
theorem agentic_loop_aux_prefix (plan : AgentPlan) (m : Nat)
    (exec : Nat → List SearchResult → List SearchResult) :
    ∀ (fuel it : Nat) (acc : List SearchResult),
      acc <+: (agentic_loop_aux plan m exec fuel it acc).1 := by
  intro fuel
  induction fuel with
  | zero => intro it acc; simp [agentic_loop_aux]
  | succ n ih =>
    intro it acc
    rw [agentic_loop_aux_succ]
    split
    · exact List.prefix_append acc (exec it acc)
    · exact (List.prefix_append acc (exec it acc)).trans (ih (it + 1) (acc ++ exec it acc))

/-- A round that does execute contributes its full result list. -/
theorem agentic_loop_aux_round_prefix (plan : AgentPlan) (m : Nat)
    (exec : Nat → List SearchResult → List SearchResult) (fuel it : Nat)
    (acc : List SearchResult) :
    (acc ++ exec it acc) <+: (agentic_loop_aux plan m exec (fuel + 1) it acc).1 := by
  rw [agentic_loop_aux_succ]
  split
  · exact List.prefix_rfl
  · exact agentic_loop_aux_prefix plan m exec fuel (it + 1) (acc ++ exec it acc)

/-- A list of positive naturals sums to at least its length. -/
theorem length_le_sum_of_pos (l : List Nat) (h1 : ∀ c ∈ l, 1 ≤ c) :
    l.length ≤ l.sum := by
  induction l with
  | nil => simp
  | cons x xs ih =>
    have hx : 1 ≤ x := h1 x (List.mem_cons_self x xs)
    have := ih (fun c hc => h1 c (List.mem_cons_of_mem x hc))
    simp only [List.length_cons, List.sum_cons]
    omega

/-- A list of positive naturals with a member ≥ 2 sums to more than its length. -/
theorem length_lt_sum_of_mem_two (l : List Nat) (h1 : ∀ c ∈ l, 1 ≤ c)
    (h2 : ∃ c ∈ l, 2 ≤ c) : l.length < l.sum := by
  induction l with
  | nil => rcases h2 with ⟨c, hc, _⟩; cases hc
  | cons x xs ih =>
    have hx : 1 ≤ x := h1 x (List.mem_cons_self x xs)
    have hxs : ∀ c ∈ xs, 1 ≤ c := fun c hc => h1 c (List.mem_cons_of_mem x hc)
    have hsum : xs.length ≤ xs.sum := length_le_sum_of_pos xs hxs
    rcases h2 with ⟨c, hc, hc2⟩
    rcases List.mem_cons.mp hc with rfl | hcx
    · simp only [List.length_cons, List.sum_cons]
      omega
    · have := ih hxs ⟨c, hcx, hc2⟩
      simp only [List.length_cons, List.sum_cons]
      omega

/-! ## Helper lemmas about the agent memory -/

/-- The code's truncation (`[-10:]` only when the list exceeds 10 entries)
always equals taking the last ten. -/
theorem trunc_eq_lastTen (x : List MemoryEntry) :
    (if 10 < x.length then x.drop (x.length - 10) else x) = lastTen x := by
  unfold lastTen
  split
  · rfl
  · rw [Nat.sub_eq_zero_of_le (by omega), List.drop_zero]

theorem lastTen_length_le (l : List MemoryEntry) : (lastTen l).length ≤ 10 := by
  unfold lastTen
  rw [List.length_drop]
  omega

/-- Appending one entry commutes with repeated last-ten truncation. -/
theorem lastTen_append_singleton (a : List MemoryEntry) (e : MemoryEntry) :
    lastTen (lastTen a ++ [e]) = lastTen (a ++ [e]) := by
  unfold lastTen
  rw [List.drop_append_eq_append_drop, List.drop_append_eq_append_drop,
    List.drop_drop]
  simp only [List.length_append, List.length_drop, List.length_cons,
    List.length_nil]
  congr 2 <;> omega

theorem recordedEntries_append (k : String) (xs : List MemoryCall) (c : MemoryCall) :
    recordedEntries k (xs ++ [c])
      = recordedEntries k xs ++ (if c.strategy.value = k then [callEntry c] else []) := by
  unfold recordedEntries
  rw [List.filter_append, List.map_append]
  congr 1
  split
  · next h => simp [List.filter, h]
  · next h => simp [List.filter, h]

/-! ## Claim theorems -/

/-- C1: for every plan, every bound and every search capability (hence every
sequence of capability responses, including always-empty and always-raising
ones), the `generate_recommendation` loop executes at most `max_iterations`
rounds, accumulates exactly the sum of the per-round result counts into
`search_results`, and each round only appends — any reachable accumulator is
a prefix of the final list (third conjunct, stated for every loop body). -/
theorem c1_loop_invariants (plan : AgentPlan) (max_iterations : Nat) (cap : SearchCap) :
    ((generate_recommendation_search cap max_iterations plan).2).length ≤ max_iterations
    ∧ (generate_recommendation_search cap max_iterations plan).1.length
        = ((generate_recommendation_search cap max_iterations plan).2).sum
    ∧ ∀ (exec : Nat → List SearchResult → List SearchResult) (fuel it : Nat)
        (acc : List SearchResult),
        acc <+: (agentic_loop_aux plan max_iterations exec fuel it acc).1 := by
  refine ⟨?_, ?_, ?_⟩
  · exact agentic_loop_aux_rounds_le plan max_iterations (round_search cap plan)
      max_iterations 0 []
  · have h := agentic_loop_aux_length_eq plan max_iterations (round_search cap plan)
      max_iterations 0 []
    simpa using h
  · intro exec fuel it acc
    exact agentic_loop_aux_prefix plan max_iterations exec fuel it acc

/-- C2: `_should_stop_searching` returns true iff the assessment's
`meets_criteria` reads true (`.get("meets_criteria", False)`), or the
iteration is the last allowed, or the overall score is ≥ 0.9; in
particular an assessment with overall score 0.95 stops at every iteration
for every `meets_criteria` value. -/
theorem c2_stopping_policy :
    (∀ (max_iterations : Nat) (qa : QualityAssessment) (plan : AgentPlan) (iteration : Nat),
      should_stop_searching max_iterations qa plan iteration = true
        ↔ (qa.meets_criteria.getD false = true
            ∨ (iteration : ℤ) ≥ (max_iterations : ℤ) - 1
            ∨ qa.overall_score ≥ 0.9))
    ∧ ∀ (max_iterations : Nat) (rel cov div : ℚ) (mc : Option Bool)
        (plan : AgentPlan) (iteration : Nat),
        should_stop_searching max_iterations
          { overall_score := 0.95, relevance := rel, coverage := cov,
            diversity := div, meets_criteria := mc } plan iteration = true := by
  constructor
  · intro m qa plan it
    unfold should_stop_searching
    cases hmc : qa.meets_criteria.getD false with
    | true => simp [hmc]
    | false =>
      by_cases h2 : (it : ℤ) ≥ (m : ℤ) - 1
      · simp [hmc, h2]
      · by_cases h3 : qa.overall_score ≥ (0.9 : ℚ)
        · simp [hmc, h2, h3]
        · simp [hmc, h2, h3]
  · intro m rel cov div mc plan it
    unfold should_stop_searching
    have h : ((0.95 : ℚ) ≥ 0.9) := by norm_num
    simp [h]

/-- C3: `_select_optimal_strategy` is exactly the claimed deterministic
first-match priority rule (the hypothesis keeps the cyclic fallback inside
Python's domain, where the plan's strategy list is non-empty). -/
theorem c3_strategy_selector (plan : AgentPlan) (results : List SearchResult)
    (iteration : Nat) (hs : plan.search_strategies ≠ []) :
    select_optimal_strategy plan results iteration
      = strategy_selector_spec plan results iteration := by
  clear hs
  unfold select_optimal_strategy strategy_selector_spec results_lack_specificity
    results_need_refinement genericTypeCount averageRelevance
  by_cases h0 : iteration = 0
  · simp [h0]
  · by_cases h3 : results.length < 3
    · simp [h0, h3]
    · have hne : ¬ results = [] := by
        intro h
        rw [h] at h3
        simp at h3
      simp [h0, h3, hne]

/-- Witness for C3 at a concrete plan, result set and iteration. -/
theorem c3_strategy_selector_witness :
    planG3.search_strategies ≠ []
    ∧ select_optimal_strategy planG3 [] 5 = strategy_selector_spec planG3 [] 5 :=
  ⟨by decide, c3_strategy_selector planG3 [] 5 (by decide)⟩

/-- C4: `_assess_result_quality` on an empty new-results list returns all
four scores 0.0 and a dict without the `"meets_criteria"` key, which every
reader (`.get("meets_criteria", False)`) observes as false. -/
theorem c4_empty_assessment (plan : AgentPlan) (all_results : List SearchResult) :
    assess_result_quality [] plan all_results =
      { overall_score := 0.0, relevance := 0.0, coverage := 0.0, diversity := 0.0,
        meets_criteria := none }
    ∧ (assess_result_quality [] plan all_results).meets_criteria.getD false = false :=
  ⟨rfl, rfl⟩

/-- C5 counterexample: with a single sub-goal and a capability that answers
every query with four hits, `_execute_targeted_search` at the out-of-range
iteration 1 returns no results at all — it does NOT fall back to the
sub-goal at index 0, which would have produced the same three results as
iteration 0 does. -/
theorem c5_counterexample :
    execute_targeted_search capFourHits planOneSub 1 = []
    ∧ (execute_targeted_search capFourHits planOneSub 0).length = 3 :=
  ⟨rfl, rfl⟩

/-- C5 (amended): for an in-range iteration, TargetedSearch builds its query
from the sub-goal at index `iteration` by removing the markers
find_/identify_/locate_/discover_ wherever they occur and replacing
underscores with spaces, issues one search, and keeps at most the top 3
hits; for an out-of-range iteration it returns the empty list without
searching. -/
theorem c5_amended_targeted (cap : SearchCap) (plan : AgentPlan) (iteration : Nat) :
    execute_targeted_search cap plan iteration = targeted_search_spec cap plan iteration
    ∧ (execute_targeted_search cap plan iteration).length ≤ 3 := by
  constructor
  · unfold execute_targeted_search targeted_search_spec
    split
    · cases hcap : cap (subGoalQuery (plan.sub_goals.getD iteration "")) 5 with
      | ok hits => simp [List.map_take]
      | error e => simp
    · rfl
  · unfold execute_targeted_search
    split
    · cases hcap : cap (subGoalQuery (plan.sub_goals.getD iteration "")) 5 with
      | ok hits =>
        simp only [List.length_map, List.length_take]
        omega
      | error e => simp
    · simp

/-! ## Helper lemmas for relevance bounds -/

/-- A hit's relevance is `1 − d` exactly when the returned distance `d` is
present and non-zero. -/
theorem hitRelevance_of_nonzero (dflt : ℚ) (h : ExerciseHit) (d : ℚ)
    (hd : h.distance = some d) (hz : d ≠ 0) : hitRelevance dflt h = 1 - d := by
  unfold hitRelevance
  rw [hd]
  simp [hz]

/-- A hit's relevance falls back to `1 − default` when the distance is
absent or zero. -/
theorem hitRelevance_default (dflt : ℚ) (h : ExerciseHit)
    (hd : h.distance = none ∨ h.distance = some 0) :
    hitRelevance dflt h = 1 - dflt := by
  unfold hitRelevance
  rcases hd with hd | hd <;> rw [hd] <;> simp

/-- Relevance stays in [0,1] when both the default and every returned
distance do. -/
theorem hitRelevance_unit (dflt : ℚ) (h0 : 0 ≤ dflt) (h1 : dflt ≤ 1)
    (h : ExerciseHit) (hdist : ∀ d : ℚ, h.distance = some d → 0 ≤ d ∧ d ≤ 1) :
    0 ≤ hitRelevance dflt h ∧ hitRelevance dflt h ≤ 1 := by
  unfold hitRelevance
  cases hd : h.distance with
  | none => constructor <;> linarith
  | some d =>
    rcases hdist d hd with ⟨hd0, hd1⟩
    by_cases hz : d = 0
    · simp only [hz, ne_eq, not_true_eq_false, if_false]
      constructor <;> linarith
    · simp only [ne_eq, hz, not_false_eq_true, if_true]
      constructor <;> linarith

/-- Scoring in [0,1] for every result any of the three search builders can
produce from in-range capability hits. -/
theorem strategy_results_unit (cap : SearchCap) (plan : AgentPlan) (iteration : Nat)
    (hcap : ∀ (q : String) (k : Nat) (hits : List ExerciseHit), cap q k = .ok hits →
      ∀ h ∈ hits, ∀ d : ℚ, h.distance = some d → 0 ≤ d ∧ d ≤ 1) :
    ∀ r ∈ execute_broad_search cap plan
        ++ (execute_targeted_search cap plan iteration
            ++ execute_multi_angle_search cap plan),
      0 ≤ r.relevance_score ∧ r.relevance_score ≤ 1 := by
  intro r hr
  rcases List.mem_append.mp hr with hb | ht
  · rw [execute_broad_search] at hb
    rcases List.mem_flatten.mp hb with ⟨l, hl, hrl⟩
    rcases List.mem_map.mp hl with ⟨term, _, rfl⟩
    cases hc : cap term 5 with
    | ok hits =>
      rw [hc] at hrl
      rcases List.mem_map.mp hrl with ⟨h, hh, rfl⟩
      exact hitRelevance_unit 0.5 (by norm_num) (by norm_num) h
        (hcap term 5 hits hc h (List.mem_of_mem_take hh))
    | error e =>
      rw [hc] at hrl
      cases hrl
  · rcases List.mem_append.mp ht with ht | hm
    · rw [execute_targeted_search] at ht
      by_cases hit : iteration < plan.sub_goals.length
      · rw [if_pos hit] at ht
        cases hc : cap (subGoalQuery (plan.sub_goals.getD iteration "")) 5 with
        | ok hits =>
          rw [hc] at ht
          rcases List.mem_map.mp ht with ⟨h, hh, rfl⟩
          exact hitRelevance_unit 0.6 (by norm_num) (by norm_num) h
            (hcap _ 5 hits hc h (List.mem_of_mem_take hh))
        | error e =>
          rw [hc] at ht
          cases ht
      · rw [if_neg hit] at ht
        cases ht
    · rw [execute_multi_angle_search] at hm
      rcases List.mem_flatten.mp hm with ⟨l, hl, hrl⟩
      rcases List.mem_map.mp hl with ⟨angle, _, rfl⟩
      cases hc : cap angle 5 with
      | ok hits =>
        rw [hc] at hrl
        rcases List.mem_map.mp hrl with ⟨h, hh, rfl⟩
        exact hitRelevance_unit 0.55 (by norm_num) (by norm_num) h
          (hcap angle 5 hits hc h (List.mem_of_mem_take hh))
      | error e =>
        rw [hc] at hrl
        cases hrl

/-- C6 counterexample: when the capability DOES return a distance but it is
exactly 0 (a falsy float), the broad search substitutes the default 0.5 and
scores the hit 0.5 instead of the claimed 1 − 0 = 1; and a returned
distance of 2 yields relevance −1, outside [0,1]. -/
theorem c6_counterexample :
    (execute_broad_search capC6 planWL).map (·.relevance_score) = [0.5, -1]
    ∧ hitZeroDist.distance = some 0
    ∧ hitTwoDist.distance = some 2
    ∧ (0.5 : ℚ) ≠ 1 - 0
    ∧ ¬ (0 ≤ (-1 : ℚ)) := by
  refine ⟨?_, rfl, rfl, by norm_num, by norm_num⟩
  have hlist : execute_broad_search capC6 planWL
      = [mkBroadResult hitZeroDist, mkBroadResult hitTwoDist] := rfl
  rw [hlist]
  simp only [List.map_cons, List.map_nil]
  norm_num [mkBroadResult, hitRelevance, hitZeroDist, hitTwoDist]

/-- C6 (amended): each produced SearchResult scores `1 − distance` when the
capability returns a present, non-zero distance; the strategy default
distance (0.5 broad / 0.6 targeted / 0.55 multi-angle, the second argument
of `hitRelevance` at each construction site) is substituted when the
distance is absent or zero; and every produced relevance score lies in
[0,1] provided every distance the capability returns lies in [0,1]. -/
theorem c6_amended_relevance :
    (∀ (dflt : ℚ) (h : ExerciseHit) (d : ℚ), h.distance = some d → d ≠ 0 →
        hitRelevance dflt h = 1 - d)
    ∧ (∀ (dflt : ℚ) (h : ExerciseHit), (h.distance = none ∨ h.distance = some 0) →
        hitRelevance dflt h = 1 - dflt)
    ∧ (∀ (cap : SearchCap) (plan : AgentPlan) (iteration : Nat),
        (∀ (q : String) (k : Nat) (hits : List ExerciseHit), cap q k = .ok hits →
          ∀ h ∈ hits, ∀ d : ℚ, h.distance = some d → 0 ≤ d ∧ d ≤ 1) →
        ∀ r ∈ execute_broad_search cap plan
            ++ (execute_targeted_search cap plan iteration
                ++ execute_multi_angle_search cap plan),
          0 ≤ r.relevance_score ∧ r.relevance_score ≤ 1) :=
  ⟨hitRelevance_of_nonzero, hitRelevance_default, strategy_results_unit⟩

/-- Witness for C6 (amended) at concrete hits and an in-range capability. -/
theorem c6_amended_relevance_witness :
    hitRelevance 0.5 hitA = 1 - 0.1
    ∧ hitRelevance 0.6 hitZeroDist = 1 - 0.6
    ∧ (0 ≤ (mkBroadResult hitA).relevance_score
        ∧ (mkBroadResult hitA).relevance_score ≤ 1) := by
  have hcap : ∀ (q : String) (k : Nat) (hits : List ExerciseHit),
      capInRange q k = .ok hits →
      ∀ h ∈ hits, ∀ d : ℚ, h.distance = some d → 0 ≤ d ∧ d ≤ 1 := by
    intro q k hits hh h hmem d hd
    have hh' : (Except.ok [hitA, hitB] : Except Unit (List ExerciseHit))
        = Except.ok hits := hh
    injection hh' with h2
    subst h2
    rcases hmem with _ | ⟨_, hmem⟩
    · have hd' : (some (0.1 : ℚ)) = some d := hd
      injection hd' with h3
      subst h3
      constructor <;> norm_num
    · rcases hmem with _ | ⟨_, hmem⟩
      · have hd' : (some (0.2 : ℚ)) = some d := hd
        injection hd' with h3
        subst h3
        constructor <;> norm_num
      · cases hmem
  have hmem : mkBroadResult hitA
      ∈ execute_broad_search capInRange planWL
        ++ (execute_targeted_search capInRange planWL 0
            ++ execute_multi_angle_search capInRange planWL) := by
    apply List.mem_append_left
    exact List.mem_cons_self _ _
  exact ⟨c6_amended_relevance.1 0.5 hitA 0.1 rfl (by norm_num),
    c6_amended_relevance.2.1 0.6 hitZeroDist (Or.inr rfl),
    c6_amended_relevance.2.2 capInRange planWL 0 hcap (mkBroadResult hitA) hmem⟩

/-- C7: the `successful_strategies` memory after any sequence of
`_update_agent_memory` calls holds, per strategy key, exactly the last (at
most) 10 entries recorded for that key, in insertion order — so never more
than 10; in particular, after the 15 calls of `calls15` the oldest 5
entries are gone and the newest 10 remain. -/
theorem c7_agent_memory :
    (∀ (calls : List MemoryCall) (k : String),
      (run_agent_memory calls k).length ≤ 10
      ∧ run_agent_memory calls k = lastTen (recordedEntries k calls))
    ∧ run_agent_memory calls15 "broad_search"
        = (recordedEntries "broad_search" calls15).drop 5 := by
  have main : ∀ (calls : List MemoryCall) (k : String),
      run_agent_memory calls k = lastTen (recordedEntries k calls) := by
    intro calls
    induction calls using List.reverseRecOn with
    | nil => intro k; rfl
    | append_singleton xs c ih =>
      intro k
      have hstep : run_agent_memory (xs ++ [c])
          = update_agent_memory (run_agent_memory xs) c.strategy c.results c.quality := by
        unfold run_agent_memory
        rw [List.foldl_append]
        rfl
      rw [hstep, recordedEntries_append]
      unfold update_agent_memory
      by_cases hk : k = c.strategy.value
      · simp only [if_pos hk, if_pos hk.symm]
        rw [trunc_eq_lastTen, hk, ih c.strategy.value, lastTen_append_singleton]
        rfl
      · have hk' : ¬ c.strategy.value = k := fun h => hk h.symm
        simp only [if_neg hk, if_neg hk']
        rw [List.append_nil]
        exact ih k
  refine ⟨fun calls k => ⟨?_, main calls k⟩, ?_⟩
  · rw [main calls k]
    exact lastTen_length_le _
  · rw [main calls15 "broad_search"]
    unfold lastTen
    have hlen : (recordedEntries "broad_search" calls15).length = 15 := rfl
    rw [hlen]

/-- C8 counterexample: a concrete run (capability answering every query
with two hits, `max_iterations = 3`, "general" plan) uses at most
`expected_iterations` rounds, yet the Reflector reports
`planning_effectiveness = false`, because the code compares
`len(search_results)` (here ≥ 8) — not the round count — against
`plan.expected_iterations`. -/
theorem c8_counterexample :
    ((generate_recommendation_search capTwoHits 3 planG3).2).length
      ≤ planG3.expected_iterations
    ∧ (generate_reflection_insights planG3
        (generate_recommendation_search capTwoHits 3 planG3).1).planning_effectiveness
      = false := by
  have hexp : planG3.expected_iterations = 3 := rfl
  have h8 : 8 ≤ (generate_recommendation_search capTwoHits 3 planG3).1.length := by
    have hpre := agentic_loop_aux_round_prefix planG3 3 (round_search capTwoHits planG3) 2 0 []
    have hlen := hpre.length_le
    have hround : (([] : List SearchResult) ++ round_search capTwoHits planG3 0 []).length = 8 := rfl
    rw [hround] at hlen
    exact hlen
  constructor
  · rw [hexp]
    exact agentic_loop_aux_rounds_le planG3 3 (round_search capTwoHits planG3) 3 0 []
  · simp only [generate_reflection_insights]
    apply decide_eq_false
    rw [hexp]
    omega

/-- C8 (amended): the Reflector's `planning_effectiveness` is true iff the
TOTAL NUMBER OF ACCUMULATED SEARCH RESULTS — not the number of loop
rounds — is at most `plan.expected_iterations`. -/
theorem c8_amended_reflection (plan : AgentPlan) (search_results : List SearchResult) :
    (generate_reflection_insights plan search_results).planning_effectiveness = true
      ↔ search_results.length ≤ plan.expected_iterations := by
  simp [generate_reflection_insights]

/-- C9 counterexample: "muscular" sends the fitness level to "advanced"
and "moderate" to "intermediate" and "limited experience" to "beginner",
although none of these texts contains any of the four keywords the claim
lists, so the claim's age-band fallback predicts different values
("intermediate" for age 30 and "beginner_to_intermediate" for age 20). -/
theorem c9_counterexample :
    infer_fitness_level 30 "muscular" = "advanced"
    ∧ strContains (strLower "muscular") "advanced" = false
    ∧ strContains (strLower "muscular") "athletic" = false
    ∧ strContains (strLower "muscular") "beginner" = false
    ∧ strContains (strLower "muscular") "sedentary" = false
    ∧ ageBandLevel 30 = "intermediate"
    ∧ "advanced" ≠ "intermediate"
    ∧ infer_fitness_level 20 "moderate" = "intermediate"
    ∧ strContains (strLower "moderate") "advanced" = false
    ∧ strContains (strLower "moderate") "athletic" = false
    ∧ strContains (strLower "moderate") "beginner" = false
    ∧ strContains (strLower "moderate") "sedentary" = false
    ∧ ageBandLevel 20 = "beginner_to_intermediate"
    ∧ ("intermediate" : String) ≠ "beginner_to_intermediate"
    ∧ infer_fitness_level 30 "limited experience" = "beginner" := by
  decide

/-- C9 (amended): the fitness-level inference returns "advanced" when the
lower-cased non-empty text contains advanced, muscular or athletic; else
"beginner" when it contains beginner, sedentary or limited experience;
else "intermediate" when it contains intermediate or moderate; otherwise
(including empty text) the age-banded value (<25 →
beginner_to_intermediate, >50 → experienced_but_cautious, else
intermediate). -/
theorem c9_amended_fitness (age : ℤ) (text : String) :
    infer_fitness_level age text = fitness_level_spec age text := by
  unfold infer_fitness_level fitness_level_spec
  by_cases h : text = ""
  · simp [h]
  · simp [h]

/-- C10 counterexample: with `max_iterations = 2` and a capability that only
answers the multi-angle query "beginner fitness" (with two hits), the run
executes two rounds with per-round counts [0, 2]: one round returned more
than one result, yet `iterations_used` (= `len(search_results)` = 2) does
NOT strictly exceed the number of rounds (2). -/
theorem c10_counterexample :
    (generate_recommendation_search capC10 2 planG2).2 = [0, 2]
    ∧ iterations_used (generate_recommendation_search capC10 2 planG2) = 2
    ∧ ¬ (((generate_recommendation_search capC10 2 planG2).2).length
          < iterations_used (generate_recommendation_search capC10 2 planG2)) := by
  have h0 : round_search capC10 planG2 0 [] = [] := rfl
  have hstop0 : should_stop_searching 2
      (assess_result_quality [] planG2 []) planG2 0 = false := by
    unfold should_stop_searching assess_result_quality
    norm_num
  have h1 : (round_search capC10 planG2 1 []).length = 2 := rfl
  have hstop1 : should_stop_searching 2
      (assess_result_quality (round_search capC10 planG2 1 []) planG2 []) planG2 1 = true := by
    unfold should_stop_searching
    have h2 : ((1 : ℤ) ≥ (2 : ℤ) - 1) := by norm_num
    simp [h2]
  have e1 := agentic_loop_aux_succ planG2 2 (round_search capC10 planG2) 1 0 []
  rw [h0] at e1
  rw [hstop0] at e1
  simp only [Bool.false_eq_true, if_false, List.append_nil, List.length_nil] at e1
  have e2 := agentic_loop_aux_succ planG2 2 (round_search capC10 planG2) 0 1 []
  rw [hstop1] at e2
  simp only [if_true, List.nil_append] at e2
  have erun : generate_recommendation_search capC10 2 planG2
      = (round_search capC10 planG2 1 [], [0, 2]) := by
    show agentic_loop_aux planG2 2 (round_search capC10 planG2) (1 + 1) 0 []
      = (round_search capC10 planG2 1 [], [0, 2])
    rw [e1, e2]
    simp [h1]
  rw [erun]
  refine ⟨rfl, ?_, ?_⟩
  · show (round_search capC10 planG2 1 []).length = 2
    exact h1
  · show ¬ ([0, 2].length < (round_search capC10 planG2 1 []).length)
    rw [h1]
    simp

/-- C10 (amended): `iterations_used` equals the total accumulated result
count (the sum of the per-round counts), which is 0 when every round
returns zero results, and strictly exceeds the number of rounds whenever
every executed round returns at least one result and some round returns
more than one. -/
theorem c10_amended_metadata (cap : SearchCap) (max_iterations : Nat) (plan : AgentPlan) :
    iterations_used (generate_recommendation_search cap max_iterations plan)
      = ((generate_recommendation_search cap max_iterations plan).2).sum
    ∧ ((∀ c ∈ (generate_recommendation_search cap max_iterations plan).2, 1 ≤ c) →
        (∃ c ∈ (generate_recommendation_search cap max_iterations plan).2, 2 ≤ c) →
        ((generate_recommendation_search cap max_iterations plan).2).length
          < iterations_used (generate_recommendation_search cap max_iterations plan))
    ∧ ((∀ c ∈ (generate_recommendation_search cap max_iterations plan).2, c = 0) →
        iterations_used (generate_recommendation_search cap max_iterations plan) = 0) := by
  have hsum : iterations_used (generate_recommendation_search cap max_iterations plan)
      = ((generate_recommendation_search cap max_iterations plan).2).sum := by
    have h := agentic_loop_aux_length_eq plan max_iterations (round_search cap plan)
      max_iterations 0 []
    simpa [iterations_used] using h
  refine ⟨hsum, ?_, ?_⟩
  · intro h1 h2
    rw [hsum]
    exact length_lt_sum_of_mem_two _ h1 h2
  · intro h0
    rw [hsum]
    exact List.sum_eq_zero h0

/-- Witness for C10 (amended): a one-round run returning eight results. -/
theorem c10_amended_metadata_witness :
    ((generate_recommendation_search capTwoHits 1 planG1).2).length
      < iterations_used (generate_recommendation_search capTwoHits 1 planG1) := by
  have hstop : should_stop_searching 1
      (assess_result_quality (round_search capTwoHits planG1 0 []) planG1 []) planG1 0 = true := by
    unfold should_stop_searching
    have h2 : ((0 : ℤ) ≥ (1 : ℤ) - 1) := by norm_num
    simp [h2]
  have h8 : (round_search capTwoHits planG1 0 []).length = 8 := rfl
  have e1 := agentic_loop_aux_succ planG1 1 (round_search capTwoHits planG1) 0 0 []
  rw [hstop] at e1
  simp only [if_true, List.nil_append] at e1
  have hcounts : (generate_recommendation_search capTwoHits 1 planG1).2 = [8] := by
    show (agentic_loop_aux planG1 1 (round_search capTwoHits planG1) (0 + 1) 0 []).2 = [8]
    rw [e1]
    simp [h8]
  apply (c10_amended_metadata capTwoHits 1 planG1).2.1
  · intro c hc
    rw [hcounts] at hc
    simp at hc
    omega
  · refine ⟨8, ?_, by norm_num⟩
    rw [hcounts]
    simp
